import Mathlib

/-!
Shallow embedding of the NFC Shell frame codec and command dispatcher
from src/main.py.  Byte sequences are lists of natural numbers (the
Python code moves lists of ints); the transport session is a function
from transport frames to transmit outcomes.  Exceptions are modelled
with Except: a fault carries whether its exception class is
RuntimeError, the only class the source catches.
-/

/-- Embeds PN532.in_communicate_thru_command (src/main.py, line 64):
prepends the fixed tunneling marker [0xD4, 0x42] to the command bytes. -/
def in_communicate_thru_command (command_bytes : List Nat) : List Nat :=
  [0xD4, 0x42] ++ command_bytes

/-- Embeds ACR122.direct_transmit_command (src/main.py, line 81):
prepends [0xFF, 0x00, 0x00, 0x00] and a length field holding
the full length of the input.  The source performs no range check and
no truncation on the length value. -/
def direct_transmit_command (command_bytes : List Nat) : List Nat :=
  [0xFF, 0x00, 0x00, 0x00] ++ [command_bytes.length] ++ command_bytes

/-- Embeds the response-unwrapping step of ACR122.transmit_raw_command
(src/main.py, lines 107-108): ok is (sw1 == 0x90) and the first three
response bytes equalling [0xD5, 0x43, 0x00]; the returned data is the
response with its first three bytes removed.  The second status byte
sw2 is received but never consulted. -/
def unwrap_response (data : List Nat) (sw1 : Nat) (sw2 : Nat) : List Nat × Bool :=
  (data.drop 3, (sw1 == 0x90) && (data.take 3 == [0xD5, 0x43, 0x00]))

/-- Outcome of one call to the session's transmit operation: either a
transport response (data, sw1, sw2), or a raised exception whose class
is recorded: runtimeError = true for a RuntimeError, which line 110 of
src/main.py catches, and false for any other exception class. -/
inductive TransmitOutcome where
  | response (data : List Nat) (sw1 : Nat) (sw2 : Nat)
  | fault (runtimeError : Bool)

/-- A transmit-capable session handle (the pyscard connection object as
used by the source): a single operation mapping the fully wrapped
transport frame to a transmit outcome. -/
structure Connection where
  transmit : List Nat → TransmitOutcome

/-- Embeds ACR122.transmit_raw_command (src/main.py, lines 83-112) as
called from NfcShell.do_run, where the connection argument is the
result of SmartCard.connect_to_chip: none models the timed-out value
False, for which the source returns ([], False) without transmitting.
Otherwise the command is wrapped by the two codec functions and passed
to the session's transmit.  The Except layer models exception flow:
only a RuntimeError is caught (yielding ([], False)); any other
exception class propagates, modelled as .error ().  Alongside the
(data, ok) result the embedding records the list of frames actually
handed to the session's transmit operation, so that claims about
transmit attempts are expressible. -/
def transmit_raw_command (command_bytes : List Nat) (connection : Option Connection) :
    Except Unit ((List Nat × Bool) × List (List Nat)) :=
  match connection with
  | none => .ok (([], false), [])
  | some conn =>
    let wrapped := direct_transmit_command (in_communicate_thru_command command_bytes)
    match conn.transmit wrapped with
    | .response data sw1 sw2 => .ok (unwrap_response data sw1 sw2, [wrapped])
    | .fault true => .ok (([], false), [wrapped])
    | .fault false => .error ()

/-- Embeds the dispatch loop of NfcShell.do_run (src/main.py, lines
137-149): each command in order is wrapped, transmitted and unwrapped;
the (command, data, ok) tuple for a command is emitted as soon as it is
produced; the loop breaks at the first ok = false.  Returns the emitted
tuples together with every frame handed to the session's transmit, or
.error () when an uncaught exception propagates out of the loop. -/
def do_run (commands : List (List Nat)) (connection : Option Connection) :
    Except Unit (List (List Nat × List Nat × Bool) × List (List Nat)) :=
  match commands with
  | [] => .ok ([], [])
  | command_bytes :: rest =>
    match transmit_raw_command command_bytes connection with
    | .error e => .error e
    | .ok ((data, ok), sent) =>
      if ok then
        match do_run rest connection with
        | .error e => .error e
        | .ok (results, sentRest) =>
          .ok ((command_bytes, data, ok) :: results, sent ++ sentRest)
      else
        .ok ([(command_bytes, data, ok)], sent)

/-- A session whose transmit always answers with a protocol NACK status
(sw1 = 0x63, empty data). -/
def nackConnection : Connection := ⟨fun _ => .response [] 0x63 0x00⟩

/-- A session whose transmit always raises a RuntimeError. -/
def runtimeFaultConnection : Connection := ⟨fun _ => .fault true⟩

/-- A session whose transmit always raises an exception of a class other
than RuntimeError. -/
def nonRuntimeFaultConnection : Connection := ⟨fun _ => .fault false⟩

/-- C1: for every byte sequence b of at most 255 bytes, the composition
of the two wrap operations produces exactly the frame
[0xFF, 0x00, 0x00, 0x00, b.length + 2, 0xD4, 0x42] ++ b, and the length
field at index 4 equals the exact byte count of the tunneled payload
that follows it. -/
theorem C1_wrap_compose (b : List Nat) (h : b.length ≤ 255) :
    direct_transmit_command (in_communicate_thru_command b) =
      [0xFF, 0x00, 0x00, 0x00, b.length + 2, 0xD4, 0x42] ++ b ∧
    (direct_transmit_command (in_communicate_thru_command b))[4]? =
      some (in_communicate_thru_command b).length := by
  constructor
  · simp [direct_transmit_command, in_communicate_thru_command]
  · rfl

/-- C1 witness at the concrete three-byte payload [0x01, 0x02, 0x03]. -/
theorem C1_wrap_compose_witness :
    [0x01, 0x02, 0x03].length ≤ 255 ∧
    (direct_transmit_command (in_communicate_thru_command [0x01, 0x02, 0x03]) =
      [0xFF, 0x00, 0x00, 0x00, 5, 0xD4, 0x42] ++ [0x01, 0x02, 0x03] ∧
    (direct_transmit_command (in_communicate_thru_command [0x01, 0x02, 0x03]))[4]? =
      some (in_communicate_thru_command [0x01, 0x02, 0x03]).length) :=
  ⟨by decide, C1_wrap_compose [0x01, 0x02, 0x03] (by decide)⟩

/-- C2: the success flag produced by response unwrapping is true exactly
when sw1 = 0x90 and the first three response bytes equal the tunneling
response marker [0xD5, 0x43, 0x00]; hence it is false whenever either
condition fails. -/
theorem C2_ok_iff (data : List Nat) (sw1 sw2 : Nat) :
    (unwrap_response data sw1 sw2).2 = true ↔
      (sw1 = 0x90 ∧ data.take 3 = [0xD5, 0x43, 0x00]) := by
  simp [unwrap_response]

/-- C3: response unwrapping always returns the response with its first
three bytes removed; on responses shorter than three bytes the result
is empty and ok is false; unwrapping the marker followed by any payload
under status 0x90 00 returns (payload, true).  The operation is total. -/
theorem C3_unwrap_total (data : List Nat) (sw1 sw2 : Nat) (payload : List Nat) :
    (unwrap_response data sw1 sw2).1 = data.drop 3 ∧
    (data.length < 3 →
      (unwrap_response data sw1 sw2).1 = [] ∧ (unwrap_response data sw1 sw2).2 = false) ∧
    unwrap_response ([0xD5, 0x43, 0x00] ++ payload) 0x90 0x00 = (payload, true) := by
  refine ⟨rfl, ?_, ?_⟩
  · intro hlen
    have htake : data.take 3 ≠ [0xD5, 0x43, 0x00] := by
      intro heq
      have := congrArg List.length heq
      simp [List.length_take] at this
      omega
    constructor
    · simp [unwrap_response, List.drop_eq_nil_of_le (Nat.le_of_lt hlen)]
    · simp [unwrap_response, htake]
  · simp [unwrap_response]

/-- C3 witness: a one-byte response gives empty result and ok false. -/
theorem C3_unwrap_total_witness :
    (unwrap_response [0x05] 0x90 0x00).1 = [] ∧
    (unwrap_response [0x05] 0x90 0x00).2 = false :=
  (C3_unwrap_total [0x05] 0x90 0x00 []).2.1 (by decide)

/-- C4: dispatch short-circuits at the first command whose ok is false:
exactly that command's result tuple is emitted and no later command in
the list is transmitted (the transmitted frames are exactly those of
the failing command). -/
theorem C4_short_circuit (connection : Option Connection)
    (c : List Nat) (rest : List (List Nat)) (data : List Nat) (sent : List (List Nat))
    (h : transmit_raw_command c connection = .ok ((data, false), sent)) :
    do_run (c :: rest) connection = .ok ([(c, data, false)], sent) := by
  simp [do_run, h]

/-- C4 witness: dispatching [00 A4; FF B0] against a session that NACKs
the first command yields exactly one result tuple, and the only
transmitted frame is the first command's frame. -/
theorem C4_short_circuit_witness :
    do_run [[0x00, 0xA4], [0xFF, 0xB0]] (some nackConnection) =
      .ok ([([0x00, 0xA4], [], false)],
        [[0xFF, 0x00, 0x00, 0x00, 0x04, 0xD4, 0x42, 0x00, 0xA4]]) :=
  C4_short_circuit (some nackConnection) [0x00, 0xA4] [[0xFF, 0xB0]]
    [] [[0xFF, 0x00, 0x00, 0x00, 0x04, 0xD4, 0x42, 0x00, 0xA4]] rfl

set_option maxRecDepth 10000 in
/-- C5: evaluation at the failing input.  For a tunneled payload of 256
bytes (a 254-byte command) the source signals no error: the transmit
wrapper returns a frame whose length field is the value 256, which does
not fit one byte, and the frame is still handed to the session's
transmit (the recorded transmit list is nonempty), contradicting the
claim that PayloadTooLargeError is raised before any transmit. -/
theorem C5_no_length_check :
    (in_communicate_thru_command (List.replicate 254 0x00)).length = 256 ∧
    direct_transmit_command (in_communicate_thru_command (List.replicate 254 0x00)) =
      [0xFF, 0x00, 0x00, 0x00, 256] ++ in_communicate_thru_command (List.replicate 254 0x00) ∧
    transmit_raw_command (List.replicate 254 0x00) (some nackConnection) =
      .ok (([], false),
        [[0xFF, 0x00, 0x00, 0x00, 256] ++
          in_communicate_thru_command (List.replicate 254 0x00)]) := by
  refine ⟨by simp [in_communicate_thru_command], ?_, ?_⟩
  · simp [direct_transmit_command, in_communicate_thru_command]
  · rfl

/-- C6 counterexample: with an absent session (none) and the non-empty
command list [[0x00]], the dispatcher emits one result tuple — the
per-command failure signal ([], false) for the first command — and not
zero result tuples as the claim states. -/
theorem C6_counterexample :
    do_run [[0x00]] none = .ok ([([0x00], [], false)], []) ∧
    do_run [[0x00]] none ≠ .ok ([], []) := by
  constructor
  · rfl
  · simp [do_run, transmit_raw_command]

/-- C6 amended: for every non-empty command list, an absent session
makes the dispatcher emit exactly one result tuple, namely ([], false)
for the first command, with no frame ever handed to a transmit; the
absent-session outcome carries the same ([], false) value as a
per-command transport failure rather than a distinct error. -/
theorem C6_amended (c : List Nat) (rest : List (List Nat)) :
    do_run (c :: rest) none = .ok ([(c, [], false)], []) := by
  simp [do_run, transmit_raw_command]

/-- C7 counterexample: a transport fault raised with an exception class
other than RuntimeError is not caught by the dispatcher; it propagates
out (.error ()) instead of being collapsed into the ([], false) failure
signal, refuting the claim for that fault. -/
theorem C7_counterexample :
    do_run [[0x00]] (some nonRuntimeFaultConnection) = .error () := rfl

/-- C7 amended: a transport fault raised as a RuntimeError during
submission is caught, treated as ok = false with result ([], false) for
that command, and stops iteration over the remaining commands; faults
of any other exception class propagate out of the dispatcher instead. -/
theorem C7_amended (conn : Connection) (c : List Nat) (rest : List (List Nat))
    (h : conn.transmit (direct_transmit_command (in_communicate_thru_command c)) =
      .fault true) :
    do_run (c :: rest) (some conn) =
      .ok ([(c, [], false)], [direct_transmit_command (in_communicate_thru_command c)]) := by
  simp [do_run, transmit_raw_command, h]

/-- C7 witness: a session that always raises a RuntimeError makes the
dispatcher return one failed result tuple and stop. -/
theorem C7_amended_witness :
    do_run [[0x00]] (some runtimeFaultConnection) =
      .ok ([([0x00], [], false)], [[0xFF, 0x00, 0x00, 0x00, 0x03, 0xD4, 0x42, 0x00]]) :=
  C7_amended runtimeFaultConnection [0x00] [] rfl

/-- C8: dispatching the empty command list yields zero result tuples and
hands no frame to the session's transmit, for every session value. -/
theorem C8_empty_dispatch (connection : Option Connection) :
    do_run [] connection = .ok ([], []) := rfl

/-- C9: the two wrap operations are deterministic pure functions: on
equal inputs they produce byte-identical outputs. -/
theorem C9_wrap_deterministic (a b : List Nat) (h : a = b) :
    in_communicate_thru_command a = in_communicate_thru_command b ∧
    direct_transmit_command a = direct_transmit_command b := by
  subst h
  exact ⟨rfl, rfl⟩

/-- C9 witness at the concrete input [0x01]. -/
theorem C9_wrap_deterministic_witness :
    in_communicate_thru_command [0x01] = in_communicate_thru_command [0x01] ∧
    direct_transmit_command [0x01] = direct_transmit_command [0x01] :=
  C9_wrap_deterministic [0x01] [0x01] rfl

/-- C10: the second status byte sw2 has no influence on response
unwrapping — unwrapping with any two sw2 values yields identical
results — and success is reported even when sw2 is nonzero. -/
theorem C10_sw2_irrelevant (data : List Nat) (sw1 sw2 sw2' : Nat) :
    unwrap_response data sw1 sw2 = unwrap_response data sw1 sw2' ∧
    (unwrap_response [0xD5, 0x43, 0x00] 0x90 0x01).2 = true :=
  ⟨rfl, rfl⟩
